import Mathlib

/-
Verification of the fact-lifecycle subsystem of the BRK Digital sales-assistant
backend (backend/app/chat.py, backend/app/main.py), against its specification.

The Fact entity and the fact store live in backend/app/facts.py, which is not
part of the sources available here; they are modelled from the specification
(sections 3, 4.1, 4.2), with the shape of the interface fixed by the callers in
backend/app/chat.py and backend/app/main.py: both call sites receive the result
of `mark_saved` / `discard` as `Fact | None` (they test `is None`), and the
review API maps `None` to HTTP 404.  Time is modelled by the store's monotone
creation counter.  Python exceptions are modelled with `Except`; the tool
adapter's injectable failures (a raising `create`, a confirm step made to fail,
a raising stream emission) are modelled by a fault profile.
-/

namespace Facts

/-- Modelled from the spec: the Fact status, one of PROPOSED, SAVED, DISCARDED
(backend/app/facts.py is not in the available sources). -/
inductive FactStatus where
  | proposed
  | saved
  | discarded
deriving DecidableEq, Repr

/-- Modelled from the spec: the Fact entity of backend/app/facts.py with
`id`, `text`, `status`, `created_at`.  Identifiers and timestamps are drawn
from the store's creation counter. -/
structure Fact where
  id : Nat
  text : String
  status : FactStatus
  created_at : Nat
deriving DecidableEq, Repr

/-- Modelled from the spec: the in-memory fact store of backend/app/facts.py.
`facts` holds the entities in creation order; `nextId` is the fresh-identifier
counter (ids are unique across the store's lifetime, never reused). -/
structure FactStore where
  facts : List Fact
  nextId : Nat
deriving DecidableEq, Repr

/-- Modelled from the spec: errors of the store's `create` operation
(ValidationError on empty text). -/
inductive StoreError where
  | validationError
deriving DecidableEq, Repr

/-- Modelled from the spec: `create(text)` constructs a new Fact with a fresh
unique id, status PROPOSED and the current timestamp, inserts it, and returns
the created entity; it fails with ValidationError when the text is empty. -/
def FactStore.create (s : FactStore) (text : String) :
    Except StoreError (Fact × FactStore) :=
  if text = "" then
    .error .validationError
  else
    let f : Fact := ⟨s.nextId, text, .proposed, s.nextId⟩
    .ok (f, ⟨s.facts ++ [f], s.nextId + 1⟩)

/-- Modelled from the spec: `get(id)` returns the current snapshot of the Fact
with the given id, or nothing for a missing id (never raises). -/
def FactStore.get (s : FactStore) (id : Nat) : Option Fact :=
  s.facts.find? (fun f => f.id = id)

/-- Modelled from the spec: `list_saved()` returns all Facts with status SAVED,
in ascending creation order. -/
def FactStore.list_saved (s : FactStore) : List Fact :=
  s.facts.filter (fun f => f.status = FactStatus.saved)

/-- Pointwise status update: replace the status of the entity carrying the
given id, leave every other entity unchanged. -/
def updStatus (id : Nat) (st : FactStatus) (g : Fact) : Fact :=
  if g.id = id then { g with status := st } else g

/-- Updates the status of the Fact with the given id (the store's internal
mutation; ids are unique, so updating every entity carrying the id updates
the one entity). -/
def FactStore.setStatus (s : FactStore) (id : Nat) (st : FactStatus) : FactStore :=
  { s with facts := s.facts.map (updStatus id st) }

/-- Modelled from the spec: `mark_saved(id)` transitions PROPOSED to SAVED;
re-confirming an already SAVED Fact is an idempotent no-op returning the
existing Fact unchanged; a DISCARDED Fact or an unknown id yields no Fact.
The callers in backend/app/main.py and backend/app/chat.py receive the result
as `Fact | None` (both test `is None`), so both failure outcomes surface as
`none`. -/
def FactStore.mark_saved (s : FactStore) (id : Nat) : Option Fact × FactStore :=
  match s.facts.find? (fun f => f.id = id) with
  | none => (none, s)
  | some f =>
    match f.status with
    | .proposed => (some { f with status := .saved }, s.setStatus id .saved)
    | .saved => (some f, s)
    | .discarded => (none, s)

/-- Modelled from the spec: `discard(id)` transitions PROPOSED to DISCARDED,
with the same idempotency and invalid-transition semantics as `mark_saved`
but with target state DISCARDED. -/
def FactStore.discard (s : FactStore) (id : Nat) : Option Fact × FactStore :=
  match s.facts.find? (fun f => f.id = id) with
  | none => (none, s)
  | some f =>
    match f.status with
    | .proposed => (some { f with status := .discarded }, s.setStatus id .discarded)
    | .discarded => (some f, s)
    | .saved => (none, s)

/-- Well-formedness of a store state: entities are listed in creation order
with strictly increasing ids and timestamps, and every issued id and timestamp
is below the fresh counter.  This holds for every store reachable from the
empty store by the operations above. -/
def FactStore.WF (s : FactStore) : Prop :=
  s.facts.Pairwise (fun a b => a.id < b.id ∧ a.created_at < b.created_at) ∧
  ∀ f ∈ s.facts, f.id < s.nextId ∧ f.created_at < s.nextId

/-- The empty store, as at process start. -/
def emptyStore : FactStore := ⟨[], 0⟩

/-- Serialization key order of a Fact dict. -/
structure FactDict where
  id : Nat
  text : String
  status : String
  created_at : Nat
deriving DecidableEq, Repr

/-- String form of a status, used in serialized dicts. -/
def FactStatus.toStr : FactStatus → String
  | .proposed => "proposed"
  | .saved => "saved"
  | .discarded => "discarded"

/-- Modelled from the spec: `as_dict` serializes a Fact to a dict with keys
id, text, status, created_at. -/
def Fact.as_dict (f : Fact) : FactDict :=
  ⟨f.id, f.text, f.status.toStr, f.created_at⟩

end Facts

namespace Chat

open Facts

/-- The client tool-call marker set by the adapter
(`ClientToolCall(name="record_fact", arguments=...)`, backend/app/chat.py). -/
structure ClientToolCall where
  name : String
  fact_id : Nat
  fact_text : String
deriving DecidableEq, Repr

/-- World state threaded through the tool adapter: the global fact store, the
trace of acknowledgment hidden-context events pushed onto the conversation
stream (their content strings), and the trace of client tool-call marker
assignments. -/
structure AdapterWorld where
  store : FactStore
  streamEvents : List String
  toolCallMarkers : List ClientToolCall
deriving DecidableEq, Repr

/-- The mapping returned by a successful `save_fact` tool invocation
(`\x7b"fact_id": ..., "status": "saved"\x7d`). -/
structure SaveResult where
  fact_id : Nat
  status : String
deriving DecidableEq, Repr

/-- Injectable failures of a `save_fact` invocation: the store create raises,
the confirm step is made to fail (returns no Fact, store untouched), or
emitting the acknowledgment stream event raises. -/
structure FaultProfile where
  createRaises : Bool
  confirmFails : Bool
  streamRaises : Bool
deriving DecidableEq, Repr

/-- The step inside `save_fact` at which an exception is raised. -/
inductive AdapterError where
  | createError
  | confirmError
  | streamError
deriving DecidableEq, Repr

/-- Content of the acknowledgment hidden-context event
(`<FACT_SAVED id="...">...</FACT_SAVED>`, backend/app/chat.py line 71). -/
def ackContent (f : Fact) : String :=
  "<FACT_SAVED id=\"" ++ toString f.id ++ "\">" ++ f.text ++ "</FACT_SAVED>"

/-- The body of the `try` block of `save_fact` (backend/app/chat.py lines
60-79): create the Fact, confirm it with `mark_saved` (raising ValueError when
the confirm returns no Fact), emit one acknowledgment stream event, set the
client tool-call marker, and return the success mapping.  An `Except.error`
is a raised exception, together with the world as of the raise point
(mutations made before the raise persist). -/
def save_fact_body (flt : FaultProfile) (fact : String) (w : AdapterWorld) :
    Except AdapterError SaveResult × AdapterWorld :=
  if flt.createRaises then
    (.error .createError, w)
  else
    match w.store.create fact with
    | .error _ => (.error .createError, w)
    | .ok (saved, s1) =>
      match (if flt.confirmFails then (none, s1) else s1.mark_saved saved.id :
          Option Fact × FactStore) with
      | (none, s2) => (.error .confirmError, ⟨s2, w.streamEvents, w.toolCallMarkers⟩)
      | (some confirmed, s2) =>
        if flt.streamRaises then
          (.error .streamError, ⟨s2, w.streamEvents, w.toolCallMarkers⟩)
        else
          (.ok ⟨confirmed.id, "saved"⟩,
            ⟨s2, w.streamEvents ++ [ackContent confirmed],
              w.toolCallMarkers ++ [⟨"record_fact", confirmed.id, confirmed.text⟩]⟩)

/-- The `save_fact` tool adapter (backend/app/chat.py lines 56-82): the whole
body runs under `try`; any exception is caught, logged, and turned into the
`None` result. -/
def save_fact (flt : FaultProfile) (fact : String) (w : AdapterWorld) :
    Option SaveResult × AdapterWorld :=
  match save_fact_body flt fact w with
  | (.error _, w2) => (none, w2)
  | (.ok r, w2) => (some r, w2)

/-- The fault-free profile: no injected failures. -/
def noFaults : FaultProfile := ⟨false, false, false⟩

/-- The world at process start: empty store, no events, no markers. -/
def emptyWorld : AdapterWorld := ⟨emptyStore, [], []⟩

/-- Thread items, reduced to the shape distinctions `respond` inspects
(backend/app/chat.py): a client tool-call completion item, a user message,
or some other item kind. -/
inductive ThreadItem where
  | clientToolCallItem (id : String)
  | userMessage (textParts : List String)
  | otherItem
deriving DecidableEq, Repr

/-- The `_is_tool_completion_item` check: `isinstance(item, ClientToolCallItem)`
(backend/app/chat.py lines 43-44). -/
def is_tool_completion_item : ThreadItem → Bool
  | .clientToolCallItem _ => true
  | _ => false

/-- Result of `store.load_thread_items(thread.id, None, 1, "desc", context)`:
either a raised exception or a page whose `data` lists the thread's items,
most recent first. -/
structure ThreadPage where
  data : List ThreadItem
deriving DecidableEq, Repr

/-- The `_latest_thread_item` helper (backend/app/chat.py lines 157-164): the
load call runs under `try`; any exception is absorbed, returning no item;
otherwise return `items.data[0]` when the page has data, else no item. -/
def latest_thread_item (loadResult : Except Unit ThreadPage) : Option ThreadItem :=
  match loadResult with
  | .error _ => none
  | .ok page => page.data.head?

/-- The target item resolution of `respond` (backend/app/chat.py line 126):
`item or await self._latest_thread_item(thread, context)`. -/
def resolve_target (item : Option ThreadItem) (loadResult : Except Unit ThreadPage) :
    Option ThreadItem :=
  match item with
  | some i => some i
  | none => latest_thread_item loadResult

/-- The `respond` method's event stream (backend/app/chat.py lines 114-136).
The target item is the supplied item, if any, else the thread's most recent
item; the method yields nothing when the target is missing or is a client
tool-call completion item, or when `_to_agent_input` produces no input; the
external agent run (`stream_agent_response`) is abstracted as `run`, and
`_to_agent_input` (driven by the external converter) as `toInput`. -/
def respond (item : Option ThreadItem) (loadResult : Except Unit ThreadPage)
    (toInput : ThreadItem → Option String) (run : String → List String) :
    List String :=
  match resolve_target item loadResult with
  | none => []
  | some t =>
    if is_tool_completion_item t then
      []
    else
      match toInput t with
      | none => []
      | some inp => run inp

/-- Attachments, as passed to `to_message_content` (opaque payload). -/
structure Attachment where
  id : String
  name : String
deriving DecidableEq, Repr

/-- Outcome of a Python call that either returns or raises. -/
inductive PyResult (α : Type) where
  | ok (a : α)
  | raised (msg : String)
deriving DecidableEq, Repr

/-- The `to_message_content` method (backend/app/chat.py lines 138-139):
`raise RuntimeError("File attachments not supported.")`. -/
def to_message_content (_input : Attachment) : PyResult String :=
  .raised ("File attachments not supported.")

end Chat

namespace Api

open Facts

/-- HTTP responses of the fact review endpoints: a 200 JSON body, or an
`HTTPException` with a status code and detail. -/
inductive ApiResult (α : Type) where
  | ok (body : α)
  | httpError (code : Nat) (detail : String)
deriving DecidableEq, Repr

/-- The `GET /facts` handler (backend/app/main.py lines 59-62): 200 with the
store's saved facts serialized as dicts. -/
def list_facts (s : FactStore) : ApiResult (List FactDict) :=
  .ok (s.list_saved.map Fact.as_dict)

/-- The `POST /facts/.../save` handler (backend/app/main.py lines 64-69):
404 when `mark_saved` yields no Fact, else 200 with the fact's dict. -/
def save_fact (fact_id : Nat) (s : FactStore) : ApiResult FactDict × FactStore :=
  match s.mark_saved fact_id with
  | (none, s2) => (.httpError 404 ("Fact not found"), s2)
  | (some f, s2) => (.ok f.as_dict, s2)

/-- The `POST /facts/.../discard` handler (backend/app/main.py lines 71-76):
404 when `discard` yields no Fact, else 200 with the fact's dict. -/
def discard_fact (fact_id : Nat) (s : FactStore) : ApiResult FactDict × FactStore :=
  match s.discard fact_id with
  | (none, s2) => (.httpError 404 ("Fact not found"), s2)
  | (some f, s2) => (.ok f.as_dict, s2)

end Api

namespace Facts

theorem updStatus_id (id : Nat) (st : FactStatus) (g : Fact) :
    (updStatus id st g).id = g.id := by
  unfold updStatus
  split <;> rfl

theorem updStatus_created_at (id : Nat) (st : FactStatus) (g : Fact) :
    (updStatus id st g).created_at = g.created_at := by
  unfold updStatus
  split <;> rfl

theorem updStatus_text (id : Nat) (st : FactStatus) (g : Fact) :
    (updStatus id st g).text = g.text := by
  unfold updStatus
  split <;> rfl

theorem find?_map_updStatus (id : Nat) (st : FactStatus) (l : List Fact) :
    (l.map (updStatus id st)).find? (fun f => f.id = id) =
      (l.find? (fun f => f.id = id)).map (updStatus id st) := by
  induction l with
  | nil => rfl
  | cons g tl ih =>
    by_cases h : g.id = id
    · simp [List.find?_cons, updStatus_id, h]
    · simp [List.find?_cons, updStatus_id, h, ih]

theorem FactStore.mark_saved_some (s : FactStore) (id : Nat) (f : Fact) (s2 : FactStore)
    (h : s.mark_saved id = (some f, s2)) :
    f.id = id ∧ f.status = .saved ∧
      s2.facts.find? (fun g => g.id = id) = some f := by
  unfold FactStore.mark_saved at h
  split at h
  · simp at h
  · rename_i f0 hf
    have hid : f0.id = id := by simpa using List.find?_some hf
    split at h
    · rename_i hst
      simp at h
      obtain ⟨hfeq, hs2⟩ := h
      subst hfeq
      subst hs2
      refine ⟨hid, rfl, ?_⟩
      have hss : (s.setStatus id .saved).facts = s.facts.map (updStatus id .saved) := rfl
      rw [hss, find?_map_updStatus, hf]
      simp [updStatus, hid]
    · rename_i hst
      simp at h
      obtain ⟨hfeq, hs2⟩ := h
      subst hfeq
      subst hs2
      exact ⟨hid, hst, hf⟩
    · simp at h

theorem FactStore.discard_some (s : FactStore) (id : Nat) (f : Fact) (s2 : FactStore)
    (h : s.discard id = (some f, s2)) :
    f.id = id ∧ f.status = .discarded ∧
      s2.facts.find? (fun g => g.id = id) = some f := by
  unfold FactStore.discard at h
  split at h
  · simp at h
  · rename_i f0 hf
    have hid : f0.id = id := by simpa using List.find?_some hf
    split at h
    · rename_i hst
      simp at h
      obtain ⟨hfeq, hs2⟩ := h
      subst hfeq
      subst hs2
      refine ⟨hid, rfl, ?_⟩
      have hss : (s.setStatus id .discarded).facts = s.facts.map (updStatus id .discarded) := rfl
      rw [hss, find?_map_updStatus, hf]
      simp [updStatus, hid]
    · rename_i hst
      simp at h
      obtain ⟨hfeq, hs2⟩ := h
      subst hfeq
      subst hs2
      exact ⟨hid, hst, hf⟩
    · simp at h

theorem FactStore.create_eq_ok (s : FactStore) (text : String) (f : Fact) (s1 : FactStore)
    (h : s.create text = .ok (f, s1)) :
    text ≠ "" ∧ f = ⟨s.nextId, text, .proposed, s.nextId⟩ ∧
      s1 = ⟨s.facts ++ [f], s.nextId + 1⟩ := by
  unfold FactStore.create at h
  split at h
  · simp at h
  · simp at h
    obtain ⟨hfeq, hs1⟩ := h
    subst hfeq
    subst hs1
    refine ⟨by assumption, rfl, rfl⟩

theorem FactStore.WF_empty : emptyStore.WF := by
  constructor
  · exact List.Pairwise.nil
  · intro f hf
    simp [emptyStore] at hf

theorem FactStore.WF_create (s : FactStore) (hWF : s.WF) (text : String) (f : Fact)
    (s1 : FactStore) (h : s.create text = .ok (f, s1)) : s1.WF := by
  obtain ⟨-, hfeq, hs1⟩ := FactStore.create_eq_ok s text f s1 h
  subst hfeq
  subst hs1
  constructor
  · rw [List.pairwise_append]
    refine ⟨hWF.1, List.pairwise_singleton _ _, ?_⟩
    intro a ha b hb
    simp at hb
    subst hb
    exact hWF.2 a ha
  · intro g hg
    rcases List.mem_append.1 hg with hg1 | hg2
    · have hb := hWF.2 g hg1
      exact ⟨Nat.lt_succ_of_lt hb.1, Nat.lt_succ_of_lt hb.2⟩
    · simp at hg2
      subst hg2
      exact ⟨Nat.lt_succ_self _, Nat.lt_succ_self _⟩

theorem FactStore.WF_setStatus (s : FactStore) (hWF : s.WF) (id : Nat) (st : FactStatus) :
    (s.setStatus id st).WF := by
  constructor
  · have h1 := hWF.1
    have : (s.setStatus id st).facts = s.facts.map (updStatus id st) := rfl
    rw [this, List.pairwise_map]
    exact h1.imp (fun hab => by
      simpa [updStatus_id, updStatus_created_at] using hab)
  · intro g hg
    have : (s.setStatus id st).facts = s.facts.map (updStatus id st) := rfl
    rw [this] at hg
    obtain ⟨g0, hg0, hge⟩ := List.mem_map.1 hg
    subst hge
    simpa [updStatus_id, updStatus_created_at, FactStore.setStatus] using hWF.2 g0 hg0

theorem FactStore.WF_mark_saved (s : FactStore) (hWF : s.WF) (id : Nat) (r : Option Fact)
    (s2 : FactStore) (h : s.mark_saved id = (r, s2)) : s2.WF := by
  unfold FactStore.mark_saved at h
  split at h
  · injection h with h1 h2
    subst h2
    exact hWF
  · split at h
    · injection h with h1 h2
      subst h2
      exact FactStore.WF_setStatus s hWF id .saved
    · injection h with h1 h2
      subst h2
      exact hWF
    · injection h with h1 h2
      subst h2
      exact hWF

theorem FactStore.WF_discard (s : FactStore) (hWF : s.WF) (id : Nat) (r : Option Fact)
    (s2 : FactStore) (h : s.discard id = (r, s2)) : s2.WF := by
  unfold FactStore.discard at h
  split at h
  · injection h with h1 h2
    subst h2
    exact hWF
  · split at h
    · injection h with h1 h2
      subst h2
      exact FactStore.WF_setStatus s hWF id .discarded
    · injection h with h1 h2
      subst h2
      exact hWF
    · injection h with h1 h2
      subst h2
      exact hWF

theorem find?_append_new (s : FactStore) (hWF : s.WF) (f : Fact) (hid : f.id = s.nextId) :
    (s.facts ++ [f]).find? (fun g => g.id = f.id) = some f := by
  rw [List.find?_append]
  have h1 : s.facts.find? (fun g => g.id = f.id) = none := by
    rw [List.find?_eq_none]
    intro g hg
    have := (hWF.2 g hg).1
    simp [hid]
    omega
  rw [h1]
  simp

theorem FactStore.mark_saved_fresh (s : FactStore) (hWF : s.WF) (text : String)
    (f : Fact) (s1 : FactStore) (h : s.create text = .ok (f, s1)) :
    s1.mark_saved f.id = (some { f with status := .saved }, s1.setStatus f.id .saved) := by
  obtain ⟨-, hfeq, hs1⟩ := FactStore.create_eq_ok s text f s1 h
  have hfacts : s1.facts = s.facts ++ [f] := by rw [hs1]
  have hid : f.id = s.nextId := by rw [hfeq]
  have hst : f.status = .proposed := by rw [hfeq]
  unfold FactStore.mark_saved
  rw [hfacts, find?_append_new s hWF f hid]
  simp [hst]

theorem setStatus_append_fresh (s : FactStore) (hWF : s.WF) (f : Fact)
    (hid : f.id = s.nextId) (st : FactStatus) (s1 : FactStore)
    (hfacts : s1.facts = s.facts ++ [f]) :
    (s1.setStatus f.id st).facts = s.facts ++ [{ f with status := st }] := by
  have h1 : (s1.setStatus f.id st).facts = s1.facts.map (updStatus f.id st) := rfl
  rw [h1, hfacts, List.map_append]
  congr 1
  · refine List.map_congr_left ?_ |>.trans (List.map_id s.facts)
    intro g hg
    have := (hWF.2 g hg).1
    unfold updStatus
    rw [if_neg]
    · rfl
    · omega
  · simp [updStatus]

theorem list_saved_mem (s : FactStore) (f : Fact) :
    f ∈ s.list_saved ↔ f ∈ s.facts ∧ f.status = .saved := by
  simp [FactStore.list_saved, List.mem_filter]

theorem list_saved_sorted (s : FactStore) (hWF : s.WF) :
    s.list_saved.Pairwise (fun a b => a.created_at < b.created_at) :=
  List.Pairwise.sublist (List.filter_sublist s.facts)
    (hWF.1.imp (fun h => h.2))

theorem FactStore.mark_saved_none (s : FactStore) (id : Nat) (s2 : FactStore)
    (h : s.mark_saved id = (none, s2)) : s2 = s := by
  unfold FactStore.mark_saved at h
  split at h
  · injection h with h1 h2
    exact h2.symm
  · split at h
    · simp at h
    · simp at h
    · injection h with h1 h2
      exact h2.symm

theorem FactStore.discard_none (s : FactStore) (id : Nat) (s2 : FactStore)
    (h : s.discard id = (none, s2)) : s2 = s := by
  unfold FactStore.discard at h
  split at h
  · injection h with h1 h2
    exact h2.symm
  · split at h
    · simp at h
    · simp at h
    · injection h with h1 h2
      exact h2.symm

theorem FactStore.get_none_mark_saved (s : FactStore) (id : Nat)
    (h : s.get id = none) : s.mark_saved id = (none, s) := by
  unfold FactStore.get at h
  unfold FactStore.mark_saved
  rw [h]

theorem FactStore.get_none_discard (s : FactStore) (id : Nat)
    (h : s.get id = none) : s.discard id = (none, s) := by
  unfold FactStore.get at h
  unfold FactStore.discard
  rw [h]

theorem FactStore.get_discarded_mark_saved (s : FactStore) (id : Nat) (f : Fact)
    (h : s.get id = some f) (hst : f.status = .discarded) :
    s.mark_saved id = (none, s) := by
  unfold FactStore.get at h
  unfold FactStore.mark_saved
  rw [h]
  simp [hst]

theorem FactStore.get_saved_discard (s : FactStore) (id : Nat) (f : Fact)
    (h : s.get id = some f) (hst : f.status = .saved) :
    s.discard id = (none, s) := by
  unfold FactStore.get at h
  unfold FactStore.discard
  rw [h]
  simp [hst]

end Facts

namespace Chat

open Facts

theorem save_fact_eq_body (flt : FaultProfile) (fact : String) (w : AdapterWorld) :
    save_fact flt fact w =
      ((save_fact_body flt fact w).1.toOption, (save_fact_body flt fact w).2) := by
  unfold save_fact
  rcases hb : save_fact_body flt fact w with ⟨rb, wb⟩
  cases rb <;> simp [Except.toOption]

theorem save_fact_body_cases (flt : FaultProfile) (fact : String) (w : AdapterWorld)
    (rb : Except AdapterError SaveResult) (wb : AdapterWorld)
    (hb : save_fact_body flt fact w = (rb, wb)) :
    ((∃ e, rb = .error e) ∧ wb.streamEvents = w.streamEvents ∧
        wb.toolCallMarkers = w.toolCallMarkers) ∨
    (∃ cf : Fact, rb = .ok ⟨cf.id, "saved"⟩ ∧
        wb.streamEvents = w.streamEvents ++ [ackContent cf] ∧
        wb.toolCallMarkers = w.toolCallMarkers ++ [⟨"record_fact", cf.id, cf.text⟩]) := by
  unfold save_fact_body at hb
  split at hb
  · injection hb with h1 h2
    subst h2
    exact Or.inl ⟨⟨_, h1.symm⟩, rfl, rfl⟩
  · split at hb
    · injection hb with h1 h2
      subst h2
      exact Or.inl ⟨⟨_, h1.symm⟩, rfl, rfl⟩
    · split at hb
      · injection hb with h1 h2
        subst h2
        exact Or.inl ⟨⟨_, h1.symm⟩, rfl, rfl⟩
      · split at hb
        · injection hb with h1 h2
          subst h2
          exact Or.inl ⟨⟨_, h1.symm⟩, rfl, rfl⟩
        · injection hb with h1 h2
          subst h2
          rename_i confirmed s2 heq hns
          exact Or.inr ⟨confirmed, h1.symm, rfl, rfl⟩

theorem save_fact_body_ok_spec (flt : FaultProfile) (fact : String) (w : AdapterWorld)
    (hWF : w.store.WF) (r : SaveResult) (wb : AdapterWorld)
    (hb : save_fact_body flt fact w = (.ok r, wb)) :
    ∃ f s1, w.store.create fact = .ok (f, s1) ∧ f.status = .proposed ∧ f.text = fact ∧
      s1.mark_saved f.id =
        (some { f with status := FactStatus.saved }, s1.setStatus f.id .saved) ∧
      r = ⟨f.id, "saved"⟩ ∧ wb.store = s1.setStatus f.id .saved ∧
      wb.streamEvents = w.streamEvents ++ [ackContent { f with status := FactStatus.saved }] ∧
      wb.toolCallMarkers = w.toolCallMarkers ++ [⟨"record_fact", f.id, f.text⟩] := by
  unfold save_fact_body at hb
  by_cases h1 : flt.createRaises
  · simp [h1] at hb
  · rcases hc : w.store.create fact with e | p
    · simp [h1, hc] at hb
    · rcases p with ⟨f, s1⟩
      have hco := FactStore.create_eq_ok w.store fact f s1 hc
      have hst : f.status = .proposed := by rw [hco.2.1]
      have htx : f.text = fact := by rw [hco.2.1]
      by_cases h2 : flt.confirmFails
      · simp [h1, hc, h2] at hb
      · have hm := FactStore.mark_saved_fresh w.store hWF fact f s1 hc
        by_cases h3 : flt.streamRaises
        · simp [h1, hc, h2, h3, hm] at hb
        · simp [h1, hc, h2, h3, hm] at hb
          refine ⟨f, s1, rfl, hst, htx, hm, hb.1.symm, ?_, ?_, ?_⟩
          · rw [← hb.2]
          · rw [← hb.2]
          · rw [← hb.2]

theorem save_fact_body_error_spec (flt : FaultProfile) (fact : String) (w : AdapterWorld)
    (hWF : w.store.WF) (e : AdapterError) (wb : AdapterWorld)
    (hb : save_fact_body flt fact w = (.error e, wb)) :
    save_fact flt fact w = (none, wb) ∧
    (e = .createError → wb = w) ∧
    (e = .confirmError → wb.store.facts =
      w.store.facts ++ [⟨w.store.nextId, fact, FactStatus.proposed, w.store.nextId⟩]) ∧
    (e = .streamError → wb.store.facts =
      w.store.facts ++ [⟨w.store.nextId, fact, FactStatus.saved, w.store.nextId⟩]) := by
  refine ⟨by rw [save_fact_eq_body, hb]; simp [Except.toOption], ?_⟩
  unfold save_fact_body at hb
  by_cases h1 : flt.createRaises
  · simp [h1] at hb
    refine ⟨fun _ => hb.2.symm, fun he => ?_, fun he => ?_⟩ <;>
      · rw [← hb.1] at he
        cases he
  · rcases hc : w.store.create fact with e0 | p
    · simp [h1, hc] at hb
      refine ⟨fun _ => hb.2.symm, fun he => ?_, fun he => ?_⟩ <;>
        · rw [← hb.1] at he
          cases he
    · rcases p with ⟨f, s1⟩
      have hco := FactStore.create_eq_ok w.store fact f s1 hc
      have hfeq : f = ⟨w.store.nextId, fact, .proposed, w.store.nextId⟩ := hco.2.1
      have hs1f : s1.facts = w.store.facts ++ [f] := by rw [hco.2.2]
      by_cases h2 : flt.confirmFails
      · simp [h1, hc, h2] at hb
        refine ⟨fun he => ?_, fun _ => ?_, fun he => ?_⟩
        · rw [← hb.1] at he
          cases he
        · rw [← hb.2, hs1f, hfeq]
        · rw [← hb.1] at he
          cases he
      · have hm := FactStore.mark_saved_fresh w.store hWF fact f s1 hc
        by_cases h3 : flt.streamRaises
        · simp [h1, hc, h2, h3, hm] at hb
          refine ⟨fun he => ?_, fun he => ?_, fun _ => ?_⟩
          · rw [← hb.1] at he
            cases he
          · rw [← hb.1] at he
            cases he
          · rw [← hb.2]
            have hid : f.id = w.store.nextId := by rw [hfeq]
            have hss := setStatus_append_fresh w.store hWF f hid .saved s1 hs1f
            rw [hss, hfeq]
        · simp [h1, hc, h2, h3, hm] at hb

end Chat

open Facts

/-- Claim C10: for every attachment input, `to_message_content` raises a
RuntimeError ("File attachments not supported."); no attachment is ever
converted to message content. -/
theorem C10_attachments_always_rejected (a : Chat.Attachment) :
    Chat.to_message_content a = .raised ("File attachments not supported.") ∧
    ∀ c, Chat.to_message_content a ≠ .ok c :=
  ⟨rfl, fun c h => by simp [Chat.to_message_content] at h⟩

/-- Claim C10, witnessed at a concrete attachment. -/
theorem C10_witness :
    Chat.to_message_content ⟨"att_1", "a.png"⟩ =
      .raised ("File attachments not supported.") :=
  (C10_attachments_always_rejected ⟨"att_1", "a.png"⟩).1

/-- Claim C9: `respond` yields no stream events at all when the resolved
target item is a client tool-call completion item, or when no item is supplied
and the fetch of the thread's most recent item either raises (the exception is
absorbed, returning no item) or finds an empty thread. -/
theorem C9_respond_yields_nothing (item : Option Chat.ThreadItem)
    (loadResult : Except Unit Chat.ThreadPage)
    (toInput : Chat.ThreadItem → Option String) (run : String → List String) :
    (∀ t, Chat.resolve_target item loadResult = some t →
      Chat.is_tool_completion_item t = true →
      Chat.respond item loadResult toInput run = []) ∧
    (item = none → loadResult = .error () →
      Chat.respond item loadResult toInput run = []) ∧
    (∀ page, item = none → loadResult = .ok page → page.data = [] →
      Chat.respond item loadResult toInput run = []) := by
  refine ⟨fun t ht htc => ?_, fun hi hl => ?_, fun page hi hl hd => ?_⟩
  · unfold Chat.respond
    rw [ht]
    simp [htc]
  · subst hi
    subst hl
    rfl
  · subst hi
    subst hl
    simp [Chat.respond, Chat.resolve_target, Chat.latest_thread_item, hd]

/-- Claim C9, witnessed at concrete inputs: a client tool-call completion
target, a raising fetch, and an empty thread. -/
theorem C9_witness :
    Chat.respond (some (Chat.ThreadItem.clientToolCallItem ("tc_1"))) (.ok ⟨[]⟩)
        (fun _ => none) (fun _ => []) = [] ∧
    Chat.respond none (.error ()) (fun _ => none) (fun _ => []) = [] ∧
    Chat.respond none (.ok ⟨[]⟩) (fun _ => none) (fun _ => []) = [] :=
  ⟨(C9_respond_yields_nothing (some (Chat.ThreadItem.clientToolCallItem ("tc_1")))
      (.ok ⟨[]⟩) (fun _ => none) (fun _ => [])).1
      (Chat.ThreadItem.clientToolCallItem ("tc_1")) rfl rfl,
    (C9_respond_yields_nothing none (.error ()) (fun _ => none) (fun _ => [])).2.1 rfl rfl,
    (C9_respond_yields_nothing none (.ok ⟨[]⟩) (fun _ => none) (fun _ => [])).2.2
      ⟨[]⟩ rfl rfl rfl⟩

/-- Claim C2 counterexample: the store signals the unknown-id outcome and the
wrong-state outcome with the identical result `none`, so a caller cannot tell
a missing id (id 5) apart from a Fact in the other terminal state (id 0,
DISCARDED for `mark_saved`, SAVED for `discard`); the claimed distinct
signalling fails at this concrete store. -/
theorem C2_counterexample :
    FactStore.get ⟨[⟨0, "t", FactStatus.discarded, 0⟩], 1⟩ 5 = none ∧
    FactStore.get ⟨[⟨0, "t", FactStatus.discarded, 0⟩], 1⟩ 0 =
      some ⟨0, "t", FactStatus.discarded, 0⟩ ∧
    (FactStore.mark_saved ⟨[⟨0, "t", FactStatus.discarded, 0⟩], 1⟩ 5).1 =
      (FactStore.mark_saved ⟨[⟨0, "t", FactStatus.discarded, 0⟩], 1⟩ 0).1 ∧
    (FactStore.mark_saved ⟨[⟨0, "t", FactStatus.discarded, 0⟩], 1⟩ 0).1 = none ∧
    (FactStore.discard ⟨[⟨0, "t", FactStatus.saved, 0⟩], 1⟩ 5).1 =
      (FactStore.discard ⟨[⟨0, "t", FactStatus.saved, 0⟩], 1⟩ 0).1 ∧
    (FactStore.discard ⟨[⟨0, "t", FactStatus.saved, 0⟩], 1⟩ 0).1 = none := by
  decide

/-- Claim C2 (amended): `mark_saved` and `discard` signal both the unknown-id
outcome and the wrong-state outcome as the single result `none` (no Fact),
leaving the store unchanged; callers cannot tell a missing id apart from a
Fact in the other terminal state. -/
theorem C2_single_failure_signal (s : FactStore) (id : Nat) :
    (s.get id = none → s.mark_saved id = (none, s) ∧ s.discard id = (none, s)) ∧
    (∀ f, s.get id = some f → f.status = FactStatus.discarded →
      s.mark_saved id = (none, s)) ∧
    (∀ f, s.get id = some f → f.status = FactStatus.saved →
      s.discard id = (none, s)) :=
  ⟨fun h => ⟨FactStore.get_none_mark_saved s id h, FactStore.get_none_discard s id h⟩,
    fun f h hst => FactStore.get_discarded_mark_saved s id f h hst,
    fun f h hst => FactStore.get_saved_discard s id f h hst⟩

/-- Claim C2 (amended), witnessed at a concrete store holding one DISCARDED
Fact: an unknown id and the discarded Fact's id produce the same `none`. -/
theorem C2_witness :
    FactStore.mark_saved ⟨[⟨0, "t", FactStatus.discarded, 0⟩], 1⟩ 5 =
      (none, ⟨[⟨0, "t", FactStatus.discarded, 0⟩], 1⟩) ∧
    FactStore.mark_saved ⟨[⟨0, "t", FactStatus.discarded, 0⟩], 1⟩ 0 =
      (none, ⟨[⟨0, "t", FactStatus.discarded, 0⟩], 1⟩) :=
  ⟨((C2_single_failure_signal ⟨[⟨0, "t", FactStatus.discarded, 0⟩], 1⟩ 5).1
      (by decide)).1,
    (C2_single_failure_signal ⟨[⟨0, "t", FactStatus.discarded, 0⟩], 1⟩ 0).2.1
      ⟨0, "t", FactStatus.discarded, 0⟩ (by decide) rfl⟩

/-- Claim C8: `mark_saved` twice in a row is idempotent (the second call
returns the same Fact unchanged, with the store unchanged); transitioning a
Fact from one terminal state to the different terminal state signals failure
(`none`, the invalid-transition signal), while repeating the same terminal
transition is a no-op success. -/
theorem C8_terminal_transition_semantics (s : FactStore) (id : Nat) :
    (∀ f s2, s.mark_saved id = (some f, s2) → s2.mark_saved id = (some f, s2)) ∧
    (∀ f s2, s.mark_saved id = (some f, s2) → s2.discard id = (none, s2)) ∧
    (∀ f s2, s.discard id = (some f, s2) → s2.discard id = (some f, s2)) ∧
    (∀ f s2, s.discard id = (some f, s2) → s2.mark_saved id = (none, s2)) := by
  refine ⟨fun f s2 h => ?_, fun f s2 h => ?_, fun f s2 h => ?_, fun f s2 h => ?_⟩
  · obtain ⟨hid, hst, hfind⟩ := FactStore.mark_saved_some s id f s2 h
    unfold FactStore.mark_saved
    rw [hfind]
    simp [hst]
  · obtain ⟨hid, hst, hfind⟩ := FactStore.mark_saved_some s id f s2 h
    unfold FactStore.discard
    rw [hfind]
    simp [hst]
  · obtain ⟨hid, hst, hfind⟩ := FactStore.discard_some s id f s2 h
    unfold FactStore.discard
    rw [hfind]
    simp [hst]
  · obtain ⟨hid, hst, hfind⟩ := FactStore.discard_some s id f s2 h
    unfold FactStore.mark_saved
    rw [hfind]
    simp [hst]

/-- Claim C8, witnessed on a store holding one PROPOSED Fact: after a
successful `mark_saved`, a second `mark_saved` is a no-op success and a
`discard` fails. -/
theorem C8_witness :
    FactStore.mark_saved ⟨[⟨0, "t", FactStatus.saved, 0⟩], 1⟩ 0 =
      (some ⟨0, "t", FactStatus.saved, 0⟩, ⟨[⟨0, "t", FactStatus.saved, 0⟩], 1⟩) ∧
    FactStore.discard ⟨[⟨0, "t", FactStatus.saved, 0⟩], 1⟩ 0 =
      (none, ⟨[⟨0, "t", FactStatus.saved, 0⟩], 1⟩) :=
  ⟨(C8_terminal_transition_semantics ⟨[⟨0, "t", FactStatus.proposed, 0⟩], 1⟩ 0).1
      ⟨0, "t", FactStatus.saved, 0⟩ ⟨[⟨0, "t", FactStatus.saved, 0⟩], 1⟩ (by decide),
    (C8_terminal_transition_semantics ⟨[⟨0, "t", FactStatus.proposed, 0⟩], 1⟩ 0).2.1
      ⟨0, "t", FactStatus.saved, 0⟩ ⟨[⟨0, "t", FactStatus.saved, 0⟩], 1⟩ (by decide)⟩

/-- Claim C6: `POST /facts/.../save` returns 200 with the fact's dict exactly
when the store's `mark_saved` returns a Fact and 404 exactly when it returns
no Fact, and `POST /facts/.../discard` behaves the same way with respect to
the store's `discard`. -/
theorem C6_endpoints_200_404 (fid : Nat) (s : FactStore) :
    (∀ f s2, s.mark_saved fid = (some f, s2) →
      Api.save_fact fid s = (.ok f.as_dict, s2)) ∧
    (∀ s2, s.mark_saved fid = (none, s2) →
      Api.save_fact fid s = (.httpError 404 ("Fact not found"), s2)) ∧
    (∀ f s2, s.discard fid = (some f, s2) →
      Api.discard_fact fid s = (.ok f.as_dict, s2)) ∧
    (∀ s2, s.discard fid = (none, s2) →
      Api.discard_fact fid s = (.httpError 404 ("Fact not found"), s2)) := by
  refine ⟨fun f s2 h => ?_, fun s2 h => ?_, fun f s2 h => ?_, fun s2 h => ?_⟩ <;>
    simp [Api.save_fact, Api.discard_fact, h]

/-- Claim C6, witnessed at a concrete store: saving a PROPOSED Fact returns
200 with its dict; saving an unknown id returns 404. -/
theorem C6_witness :
    Api.save_fact 0 ⟨[⟨0, "t", FactStatus.proposed, 0⟩], 1⟩ =
      (.ok ⟨0, "t", "saved", 0⟩, ⟨[⟨0, "t", FactStatus.saved, 0⟩], 1⟩) ∧
    Api.save_fact 7 ⟨[⟨0, "t", FactStatus.proposed, 0⟩], 1⟩ =
      (.httpError 404 ("Fact not found"), ⟨[⟨0, "t", FactStatus.proposed, 0⟩], 1⟩) :=
  ⟨(C6_endpoints_200_404 0 ⟨[⟨0, "t", FactStatus.proposed, 0⟩], 1⟩).1
      ⟨0, "t", FactStatus.saved, 0⟩ ⟨[⟨0, "t", FactStatus.saved, 0⟩], 1⟩ (by decide),
    (C6_endpoints_200_404 7 ⟨[⟨0, "t", FactStatus.proposed, 0⟩], 1⟩).2.1
      ⟨[⟨0, "t", FactStatus.proposed, 0⟩], 1⟩ (by decide)⟩

/-- Claim C7: `GET /facts` returns 200 with exactly the Facts currently in
SAVED status — never a PROPOSED or DISCARDED Fact — serialized as dicts, in
ascending creation order. -/
theorem C7_list_facts_saved_in_order (s : FactStore) (hWF : s.WF) :
    Api.list_facts s = .ok (s.list_saved.map Fact.as_dict) ∧
    (∀ f, f ∈ s.list_saved ↔ f ∈ s.facts ∧ f.status = FactStatus.saved) ∧
    s.list_saved.Pairwise (fun a b => a.created_at < b.created_at) :=
  ⟨rfl, fun f => list_saved_mem s f, list_saved_sorted s hWF⟩

/-- Claim C7, witnessed at a concrete well-formed store with one SAVED and one
PROPOSED Fact: the listing serializes exactly the SAVED one. -/
theorem C7_witness :
    Api.list_facts ⟨[⟨0, "a", FactStatus.saved, 0⟩, ⟨1, "b", FactStatus.proposed, 1⟩], 2⟩ =
      .ok [⟨0, "a", "saved", 0⟩] := by
  have hWF : FactStore.WF ⟨[⟨0, "a", FactStatus.saved, 0⟩, ⟨1, "b", FactStatus.proposed, 1⟩], 2⟩ := by
    constructor
    · refine List.pairwise_cons.2 ⟨?_, List.pairwise_singleton _ _⟩
      intro g hg
      simp at hg
      subst hg
      exact ⟨Nat.zero_lt_one, Nat.zero_lt_one⟩
    · intro f hf
      rcases List.mem_cons.1 hf with hf1 | hf1
      · subst hf1
        exact ⟨Nat.zero_lt_two, Nat.zero_lt_two⟩
      · simp at hf1
        subst hf1
        exact ⟨Nat.one_lt_two, Nat.one_lt_two⟩
  have h := C7_list_facts_saved_in_order
    ⟨[⟨0, "a", FactStatus.saved, 0⟩, ⟨1, "b", FactStatus.proposed, 1⟩], 2⟩ hWF
  exact h.1.trans (by decide)

/-- Claim C3: every exception raised while `save_fact` talks to the store or
emits stream events is caught by its surrounding `try`, and the call returns
`None` (an empty tool result); the result is `None` exactly when the body
raised, and no exception ever propagates to the agent runtime — `save_fact`
is the total catch-wrapper of its body. -/
theorem C3_save_fact_never_raises (flt : Chat.FaultProfile) (fact : String)
    (w : Chat.AdapterWorld) :
    Chat.save_fact flt fact w =
      ((Chat.save_fact_body flt fact w).1.toOption, (Chat.save_fact_body flt fact w).2) ∧
    ((Chat.save_fact flt fact w).1 = none ↔
      ∃ e, (Chat.save_fact_body flt fact w).1 = .error e) := by
  refine ⟨Chat.save_fact_eq_body flt fact w, ?_⟩
  rw [Chat.save_fact_eq_body flt fact w]
  rcases hb : Chat.save_fact_body flt fact w with ⟨rb, wb⟩
  cases rb <;> simp [Except.toOption]

/-- Claim C3, witnessed at a concrete faulty invocation: the injected stream
exception is absorbed into the `None` result. -/
theorem C3_witness :
    (Chat.save_fact ⟨false, false, true⟩ ("x") Chat.emptyWorld).1 = none ↔
      ∃ e, (Chat.save_fact_body ⟨false, false, true⟩ ("x") Chat.emptyWorld).1 =
        .error e :=
  (C3_save_fact_never_raises ⟨false, false, true⟩ ("x") Chat.emptyWorld).2

/-- Claim C4: every successful `save_fact` invocation emits exactly one
acknowledgment stream event (carrying the confirmed fact's id and text) and
sets exactly one client tool-call marker with the matching fact id and text;
every failed invocation emits zero events and zero markers. -/
theorem C4_ack_and_marker_exactly_once (flt : Chat.FaultProfile) (fact : String)
    (w : Chat.AdapterWorld) :
    (∀ r wb, Chat.save_fact flt fact w = (some r, wb) →
      ∃ cf : Facts.Fact, r.fact_id = cf.id ∧
        wb.streamEvents = w.streamEvents ++ [Chat.ackContent cf] ∧
        wb.toolCallMarkers = w.toolCallMarkers ++ [⟨"record_fact", cf.id, cf.text⟩]) ∧
    (∀ wb, Chat.save_fact flt fact w = (none, wb) →
      wb.streamEvents = w.streamEvents ∧ wb.toolCallMarkers = w.toolCallMarkers) := by
  have heq := Chat.save_fact_eq_body flt fact w
  rcases hb : Chat.save_fact_body flt fact w with ⟨rb, wb0⟩
  rw [hb] at heq
  have hcases := Chat.save_fact_body_cases flt fact w rb wb0 hb
  refine ⟨fun r wb h => ?_, fun wb h => ?_⟩
  · rw [heq] at h
    injection h with h1 h2
    subst h2
    rcases hcases with ⟨⟨e, he⟩, hev, hmk⟩ | ⟨cf, hok, hev, hmk⟩
    · rw [he] at h1
      simp [Except.toOption] at h1
    · rw [hok] at h1
      simp [Except.toOption] at h1
      exact ⟨cf, by rw [← h1], hev, hmk⟩
  · rw [heq] at h
    injection h with h1 h2
    subst h2
    rcases hcases with ⟨⟨e, he⟩, hev, hmk⟩ | ⟨cf, hok, hev, hmk⟩
    · exact ⟨hev, hmk⟩
    · rw [hok] at h1
      simp [Except.toOption] at h1

/-- Claim C4, witnessed at a concrete successful invocation: exactly one
acknowledgment event and one matching marker are appended. -/
theorem C4_witness :
    ∃ cf : Facts.Fact, (0 : Nat) = cf.id ∧
      (Chat.save_fact Chat.noFaults ("hi") Chat.emptyWorld).2.streamEvents =
        Chat.emptyWorld.streamEvents ++ [Chat.ackContent cf] ∧
      (Chat.save_fact Chat.noFaults ("hi") Chat.emptyWorld).2.toolCallMarkers =
        Chat.emptyWorld.toolCallMarkers ++ [⟨"record_fact", cf.id, cf.text⟩] :=
  (C4_ack_and_marker_exactly_once Chat.noFaults ("hi") Chat.emptyWorld).1
    ⟨0, "saved"⟩ (Chat.save_fact Chat.noFaults ("hi") Chat.emptyWorld).2 (by decide)

/-- Claim C5: a successful `save_fact` invocation first creates a Fact in
PROPOSED status, then transitions it to SAVED via `mark_saved`, and returns
the mapping with the confirmed fact's id and status "saved". -/
theorem C5_success_creates_proposed_then_saves (flt : Chat.FaultProfile) (fact : String)
    (w : Chat.AdapterWorld) (hWF : w.store.WF) (r : Chat.SaveResult)
    (wb : Chat.AdapterWorld) (h : Chat.save_fact flt fact w = (some r, wb)) :
    ∃ f s1, w.store.create fact = .ok (f, s1) ∧ f.status = FactStatus.proposed ∧
      f.text = fact ∧
      s1.mark_saved f.id =
        (some { f with status := FactStatus.saved }, s1.setStatus f.id FactStatus.saved) ∧
      r = ⟨f.id, "saved"⟩ ∧ wb.store = s1.setStatus f.id FactStatus.saved := by
  have heq := Chat.save_fact_eq_body flt fact w
  rcases hb : Chat.save_fact_body flt fact w with ⟨rb, wb0⟩
  rw [hb] at heq
  rw [heq] at h
  injection h with h1 h2
  subst h2
  cases rb with
  | error e => simp [Except.toOption] at h1
  | ok r0 =>
    simp [Except.toOption] at h1
    obtain ⟨f, s1, hc, hst, htx, hm, hr, hstore, hev, hmk⟩ :=
      Chat.save_fact_body_ok_spec flt fact w hWF r0 wb0 hb
    exact ⟨f, s1, hc, hst, htx, hm, h1 ▸ hr, hstore⟩

/-- Claim C5, witnessed at a concrete fault-free invocation on the empty
world. -/
theorem C5_witness :
    ∃ f s1, Chat.emptyWorld.store.create ("hi") = .ok (f, s1) ∧
      f.status = FactStatus.proposed ∧ f.text = "hi" ∧
      s1.mark_saved f.id =
        (some { f with status := FactStatus.saved }, s1.setStatus f.id FactStatus.saved) ∧
      (⟨0, "saved"⟩ : Chat.SaveResult) = ⟨f.id, "saved"⟩ ∧
      (Chat.save_fact Chat.noFaults ("hi") Chat.emptyWorld).2.store =
        s1.setStatus f.id FactStatus.saved :=
  C5_success_creates_proposed_then_saves Chat.noFaults ("hi") Chat.emptyWorld
    FactStore.WF_empty ⟨0, "saved"⟩
    (Chat.save_fact Chat.noFaults ("hi") Chat.emptyWorld).2 (by decide)

/-- Claim C1 counterexample: at a concrete invocation whose acknowledgment
emission raises, the invocation fails (`None` result) but the Fact created by
that invocation is in SAVED status, not PROPOSED — refuting the claim that on
every failing step the created Fact remains PROPOSED. -/
theorem C1_counterexample :
    (Chat.save_fact ⟨false, false, true⟩ ("x") Chat.emptyWorld).1 = none ∧
    (Chat.save_fact ⟨false, false, true⟩ ("x") Chat.emptyWorld).2.store.get 0 =
      some ⟨0, "x", FactStatus.saved, 0⟩ ∧
    FactStatus.saved ≠ FactStatus.proposed := by
  refine ⟨by decide, by decide, by decide⟩

/-- Claim C1 (amended): when a `save_fact` invocation fails, the invocation
returns `None` and no partial Fact is left in an inconsistent state relative
to the failing step: if the create step raised, the world is unchanged (no
Fact was created); if the confirm step failed, the created Fact remains
PROPOSED — never silently promoted; if the acknowledgment emission raised,
the Fact had already transitioned to SAVED and remains SAVED (no rollback). -/
theorem C1_failed_invocation_fact_state (flt : Chat.FaultProfile) (fact : String)
    (w : Chat.AdapterWorld) (hWF : w.store.WF) (e : Chat.AdapterError)
    (wb : Chat.AdapterWorld) (hb : Chat.save_fact_body flt fact w = (.error e, wb)) :
    Chat.save_fact flt fact w = (none, wb) ∧
    (e = .createError → wb = w) ∧
    (e = .confirmError → wb.store.facts =
      w.store.facts ++ [⟨w.store.nextId, fact, FactStatus.proposed, w.store.nextId⟩]) ∧
    (e = .streamError → wb.store.facts =
      w.store.facts ++ [⟨w.store.nextId, fact, FactStatus.saved, w.store.nextId⟩]) :=
  Chat.save_fact_body_error_spec flt fact w hWF e wb hb

/-- Claim C1 (amended), witnessed at a concrete invocation whose confirm step
is made to fail: the result is `None` and the created Fact remains
PROPOSED. -/
theorem C1_witness :
    Chat.save_fact ⟨false, true, false⟩ ("y") Chat.emptyWorld =
      (none, ⟨⟨[⟨0, "y", FactStatus.proposed, 0⟩], 1⟩, [], []⟩) ∧
    (⟨⟨[⟨0, "y", FactStatus.proposed, 0⟩], 1⟩, [], []⟩ : Chat.AdapterWorld).store.facts =
      Chat.emptyWorld.store.facts ++
        [⟨Chat.emptyWorld.store.nextId, "y", FactStatus.proposed,
          Chat.emptyWorld.store.nextId⟩] :=
  ⟨(C1_failed_invocation_fact_state ⟨false, true, false⟩ ("y") Chat.emptyWorld
      FactStore.WF_empty .confirmError
      ⟨⟨[⟨0, "y", FactStatus.proposed, 0⟩], 1⟩, [], []⟩ rfl).1,
    (C1_failed_invocation_fact_state ⟨false, true, false⟩ ("y") Chat.emptyWorld
      FactStore.WF_empty .confirmError
      ⟨⟨[⟨0, "y", FactStatus.proposed, 0⟩], 1⟩, [], []⟩ rfl).2.2.1 rfl⟩
